import Mathlib

/-!
Verification development for the `walktour` guided-tour overlay
(`src/index.tsx` plus its positioning module).

Pixel quantities are modelled as rationals (`ℚ`); JavaScript's
`Math.round` is modelled as `jsRound`.  DOM reads (scroll offset,
viewport size, `document.querySelector`) are modelled as explicit
parameters.  Fallible JavaScript code (thrown errors, property access
on `undefined`) is modelled with `Option`/`Except`.
-/

/-- A page-absolute or viewport-relative pixel position, the `Coords`
interface of the positioning module. -/
structure Coords where
  x : ℚ
  y : ℚ
deriving DecidableEq, Repr

/-- The part of a DOM `ClientRect` used by the program: top-left corner
plus width and height (viewport-relative, as returned by
`getBoundingClientRect`). -/
structure Rect where
  top : ℚ
  left : ℚ
  width : ℚ
  height : ℚ
deriving DecidableEq, Repr

/-- The ambient browser state read by the positioning code at call time:
viewport dimensions and the current page scroll offset. -/
structure Viewport where
  width : ℚ
  height : ℚ
  scrollX : ℚ
  scrollY : ℚ
deriving DecidableEq, Repr

/-- JavaScript `Math.round`: round half toward positive infinity. -/
def jsRound (q : ℚ) : ℤ := ⌊q + 1/2⌋

/-- Modelled from the spec: `getElementCoords` of the missing
`positioning` module (§4.1 `toAbsoluteCoords`).  Adds the current page
scroll offset to the rectangle's top-left corner; when `roundToInt` is
set the result is rounded to the nearest integer pixel. -/
def getElementCoords (scroll : Coords) (rect : Rect) (roundToInt : Bool) : Coords :=
  if roundToInt then
    { x := (jsRound (rect.left + scroll.x) : ℚ), y := (jsRound (rect.top + scroll.y) : ℚ) }
  else
    { x := rect.left + scroll.x, y := rect.top + scroll.y }

/-- Modelled from the spec: the `CardinalOrientation` enumeration of the
missing `positioning` module (§3): the four cardinal directions and
their aligned variants. -/
inductive CardinalOrientation where
  | north
  | south
  | east
  | west
  | northEast
  | northWest
  | southEast
  | southWest
deriving DecidableEq, Repr

/-- Modelled from the spec: the default full ordered set of orientations
used when the caller supplies no preference list (§3). -/
def defaultOrientations : List CardinalOrientation :=
  [.south, .north, .east, .west, .southEast, .southWest, .northEast, .northWest]

/-- The `PlacementRequest` record (§3): sole input of the resolver.
`tooltip` is `none` while the tooltip has not been measured yet;
`orientationPreferences` is `none` when the caller supplied no list. -/
structure PlacementRequest where
  target : Rect
  tooltip : Option Rect
  padding : ℚ
  tooltipSeparation : ℚ
  orientationPreferences : Option (List CardinalOrientation)

/-- Modelled from the spec: the viewport-relative top-left corner of the
candidate tooltip rectangle for one orientation (§4.2 step 1).  The
south formula matches §8 scenario 1 (`y = top + height + padding +
separation`); the remaining orientations are its symmetric counterparts,
and the aligned variants share the cardinal offset while aligning to the
target's named edge. -/
def candidateCoords (target tooltip : Rect) (padding separation : ℚ) :
    CardinalOrientation → Coords
  | .south =>
      { x := target.left + target.width / 2 - tooltip.width / 2
        y := target.top + target.height + padding + separation }
  | .north =>
      { x := target.left + target.width / 2 - tooltip.width / 2
        y := target.top - padding - separation - tooltip.height }
  | .east =>
      { x := target.left + target.width + padding + separation
        y := target.top + target.height / 2 - tooltip.height / 2 }
  | .west =>
      { x := target.left - padding - separation - tooltip.width
        y := target.top + target.height / 2 - tooltip.height / 2 }
  | .southEast =>
      { x := target.left + target.width - tooltip.width
        y := target.top + target.height + padding + separation }
  | .southWest =>
      { x := target.left
        y := target.top + target.height + padding + separation }
  | .northEast =>
      { x := target.left + target.width - tooltip.width
        y := target.top - padding - separation - tooltip.height }
  | .northWest =>
      { x := target.left
        y := target.top - padding - separation - tooltip.height }

/-- Modelled from the spec: how far a candidate tooltip rectangle would
overflow the viewport on the left, top, right and bottom sides (§4.2
step 2); a value `≤ 0` means no overflow on that side. -/
def overflowAmounts (env : Viewport) (target tooltip : Rect) (padding separation : ℚ)
    (o : CardinalOrientation) : ℚ × ℚ × ℚ × ℚ :=
  let c := candidateCoords target tooltip padding separation o
  (-c.x, -c.y, c.x + tooltip.width - env.width, c.y + tooltip.height - env.height)

/-- Modelled from the spec: an orientation fits when all four overflow
amounts are `≤ 0` (§4.2 step 3). -/
def fitsB (env : Viewport) (target tooltip : Rect) (padding separation : ℚ)
    (o : CardinalOrientation) : Bool :=
  let ov := overflowAmounts env target tooltip padding separation o
  decide (ov.1 ≤ 0) && decide (ov.2.1 ≤ 0) && decide (ov.2.2.1 ≤ 0) && decide (ov.2.2.2 ≤ 0)

/-- Modelled from the spec: the final page-absolute placement for one
orientation — the candidate's viewport-relative corner shifted by the
scroll offset (§4.2, "Returns final Coords in page-absolute space"). -/
def placeOrientation (env : Viewport) (target tooltip : Rect) (padding separation : ℚ)
    (o : CardinalOrientation) : Coords :=
  let c := candidateCoords target tooltip padding separation o
  { x := c.x + env.scrollX, y := c.y + env.scrollY }

/-- Modelled from the spec: the effective priority list — the caller's
list when present and non-empty, else the default full ordered set
(§3: "Empty/absent list implies a default full-priority ordering"). -/
def effectiveOrientations : Option (List CardinalOrientation) → List CardinalOrientation
  | none => defaultOrientations
  | some [] => defaultOrientations
  | some (o :: rest) => o :: rest

/-- Modelled from the spec: `getTooltipPosition` (`resolvePlacement`,
§4.2) of the missing `positioning` module.  Returns `none` while the
tooltip is unmeasured; otherwise selects the first orientation in
priority order that fits the viewport, falling back to the first list
element when none fits. -/
def getTooltipPosition (env : Viewport) (req : PlacementRequest) : Option Coords :=
  match req.tooltip with
  | none => none
  | some tooltip =>
    let prefs := effectiveOrientations req.orientationPreferences
    match prefs.find? (fitsB env req.target tooltip req.padding req.tooltipSeparation) with
    | some o => some (placeOrientation env req.target tooltip req.padding req.tooltipSeparation o)
    | none =>
      prefs.head?.map (placeOrientation env req.target tooltip req.padding req.tooltipSeparation)

/-- A tour step as far as the model needs it: the fields of `Step` that
the embedded functions read. -/
structure Step where
  querySelector : String
  title : String
  description : String
deriving DecidableEq, Repr

/-- Function `getStep` from `index.tsx`: plain array indexing `steps[stepIndex]`.
JavaScript indexing out of range yields `undefined`, modelled as
`none`. -/
def getStep (stepIndex : ℤ) (steps : List Step) : Option Step :=
  if stepIndex < 0 then none else steps.get? stepIndex.toNat

/-- Function `getTargetData` from `index.tsx`.  The document is modelled as a
function from selector strings to the matched element's bounding
rectangle (`none` when `document.querySelector` returns `null`); the
thrown `Error` is modelled as `Except.error` carrying the message. -/
def getTargetData (doc : String → Option Rect) (selector : String) : Except String Rect :=
  match doc selector with
  | some targetData => Except.ok targetData
  | none => Except.error ("element specified by  \"" ++ selector ++ "\" could not be found")

/-- The unguarded access `getStep(currentStepIndex, steps).querySelector`
performed by the placement effect in `index.tsx`: when `getStep` yields
`undefined`, JavaScript throws a `TypeError`, modelled as
`Except.error`. -/
def effectQuerySelector (stepIndex : ℤ) (steps : List Step) : Except String String :=
  match getStep stepIndex steps with
  | some step => Except.ok step.querySelector
  | none => Except.error "TypeError: cannot read querySelector of undefined"

/-- The initial `currentStepIndex` state in `index.tsx`:
`initialStepIndex || 0`, which is `0` both when the prop is absent and
when it is `0`. -/
def initialCurrentStepIndex (initialStepIndex : Option ℤ) : ℤ :=
  match initialStepIndex with
  | none => 0
  | some i => if i = 0 then 0 else i

/-- The geometry part of `TourMask` from `index.tsx`: `null` (here
`none`) when no target rectangle is known, else a rectangle whose
top-left is the target's rounded page-absolute corner shifted out by
`padding` and whose sides are the target's grown by `padding * 2`. -/
def TourMask (target : Option Rect) (padding : ℚ) (scroll : Coords) : Option Rect :=
  match target with
  | none => none
  | some t =>
    let coords := getElementCoords scroll t true
    some { top := coords.y - padding
           left := coords.x - padding
           width := t.width + (padding * 2)
           height := t.height + (padding * 2) }

/-- CSS visibility values used by the tooltip style. -/
inductive Visibility where
  | visible
  | hidden
deriving DecidableEq, Repr

/-- The placement-relevant part of the `tooltipStyle` object built in
`index.tsx`: `top`/`left` are absent (JavaScript `undefined`) while no
position is known, and `visibility` is `hidden` exactly then. -/
structure TooltipStyle where
  top : Option ℚ
  left : Option ℚ
  visibility : Visibility
deriving DecidableEq, Repr

/-- Function `tooltipStyle` from `index.tsx`: `top: tooltipPosition &&
tooltipPosition.y`, `left: tooltipPosition && tooltipPosition.x`,
`visibility: tooltipPosition ? 'visible' : 'hidden'`. -/
def tooltipStyle (tooltipPosition : Option Coords) : TooltipStyle :=
  { top := tooltipPosition.map (fun c => c.y)
    left := tooltipPosition.map (fun c => c.x)
    visibility := match tooltipPosition with
      | some _ => Visibility.visible
      | none => Visibility.hidden }

/-- The option fields of `WalktourOptions` that carry defaults, each
`none` when the caller did not supply a value. -/
structure OptionsRec where
  prevLabel : Option String
  nextLabel : Option String
  skipLabel : Option String
  tooltipWidth : Option ℚ
  maskPadding : Option ℚ
  tooltipSeparation : Option ℚ
  transition : Option String
  disableMaskInteraction : Option Bool
  orientationPreferences : Option (List CardinalOrientation)
deriving DecidableEq

/-- Constant `walktourDefaultProps` from `index.tsx` (styles omitted). -/
def walktourDefaultProps : OptionsRec :=
  { prevLabel := some ("prev")
    nextLabel := some ("next")
    skipLabel := some ("skip")
    tooltipWidth := some 250
    maskPadding := some 5
    tooltipSeparation := some 10
    transition := some ("top 200ms ease, left 200ms ease")
    disableMaskInteraction := some false
    orientationPreferences := none }

/-- The object-spread merge of two option bags (later spread wins): every field present on
`b` overrides `a`. -/
def mergeOptions (a b : OptionsRec) : OptionsRec :=
  { prevLabel := b.prevLabel.orElse (fun _ => a.prevLabel)
    nextLabel := b.nextLabel.orElse (fun _ => a.nextLabel)
    skipLabel := b.skipLabel.orElse (fun _ => a.skipLabel)
    tooltipWidth := b.tooltipWidth.orElse (fun _ => a.tooltipWidth)
    maskPadding := b.maskPadding.orElse (fun _ => a.maskPadding)
    tooltipSeparation := b.tooltipSeparation.orElse (fun _ => a.tooltipSeparation)
    transition := b.transition.orElse (fun _ => a.transition)
    disableMaskInteraction := b.disableMaskInteraction.orElse (fun _ => a.disableMaskInteraction)
    orientationPreferences := b.orientationPreferences.orElse (fun _ => a.orientationPreferences) }

/-- The destructured options in the `Walktour` component body:
the three-way spread of defaults, tour props and step content. -/
def resolvedOptions (props stepContent : OptionsRec) : OptionsRec :=
  mergeOptions (mergeOptions walktourDefaultProps props) stepContent

/-- Function `goToStep` from `index.tsx`: an out-of-range index is ignored and the
current index kept, else the index is adopted. -/
def goToStep (stepsLength : ℕ) (currentStepIndex stepIndex : ℤ) : ℤ :=
  if stepIndex ≥ stepsLength ∨ stepIndex < 0 then currentStepIndex else stepIndex

/-- The navigation calls of the `Walktour` component: `next`, `prev`,
`skip` and the public `goToStep`, as actions on the current step
index. -/
inductive TourAction where
  | next
  | prev
  | skip
  | goto (stepIndex : ℤ)

/-- One navigation call's effect on `currentStepIndex` (`next` and
`prev` call `goToStep(currentStepIndex ± 1)`, `skip` calls
`goToStep(0)`). -/
def applyAction (stepsLength : ℕ) (currentStepIndex : ℤ) : TourAction → ℤ
  | .next => goToStep stepsLength currentStepIndex (currentStepIndex + 1)
  | .prev => goToStep stepsLength currentStepIndex (currentStepIndex - 1)
  | .skip => goToStep stepsLength currentStepIndex 0
  | .goto stepIndex => goToStep stepsLength currentStepIndex stepIndex

/-- A sequence of navigation calls applied in order. -/
def runActions (stepsLength : ℕ) (currentStepIndex : ℤ) : List TourAction → ℤ
  | [] => currentStepIndex
  | a :: rest => runActions stepsLength (applyAction stepsLength currentStepIndex a) rest

/-- A concrete rectangle used by the evaluation witnesses. -/
def sampleRect : Rect :=
  { top := 1, left := 2, width := 3, height := 4 }

/-- Selector matched by the sample document. -/
def hitSelector : String := "#hit"

/-- Selector matched by no element of the sample document. -/
def missSelector : String := "#missing"

/-- A concrete document for the evaluation witnesses: exactly one
element, reachable through `hitSelector`. -/
def sampleDoc : String → Option Rect :=
  fun s => if s = hitSelector then some sampleRect else none

/-- A concrete tour step used by the evaluation witnesses. -/
def sampleStep : Step :=
  { querySelector := "#target", title := "title", description := "description" }

/-- Helper: `goToStep` keeps a valid index valid. -/
theorem goToStep_preserves (n : ℕ) (cur t : ℤ) (h0 : 0 ≤ cur) (h1 : cur < n) :
    0 ≤ goToStep n cur t ∧ goToStep n cur t < n := by
  unfold goToStep
  split
  · exact ⟨h0, h1⟩
  · rename_i h
    push_neg at h
    exact ⟨h.2, h.1⟩

/-- Helper: any single navigation call keeps a valid index valid. -/
theorem applyAction_preserves (n : ℕ) (cur : ℤ) (a : TourAction) (h0 : 0 ≤ cur) (h1 : cur < n) :
    0 ≤ applyAction n cur a ∧ applyAction n cur a < n := by
  cases a <;> exact goToStep_preserves n cur _ h0 h1

/-- Helper: any sequence of navigation calls keeps a valid index valid. -/
theorem runActions_preserves (n : ℕ) (actions : List TourAction) :
    ∀ cur : ℤ, 0 ≤ cur → cur < n →
      0 ≤ runActions n cur actions ∧ runActions n cur actions < n := by
  induction actions with
  | nil => exact fun cur h0 h1 => ⟨h0, h1⟩
  | cons a rest ih =>
    intro cur h0 h1
    have h := applyAction_preserves n cur a h0 h1
    exact ih (applyAction n cur a) h.1 h.2

/-- C1: for a measured tooltip and a preference list in which some
orientation fits the viewport, the resolver returns the placement of the
first orientation in priority order that fits (`List.find?` yields
exactly the first list element satisfying the fit test); in particular,
for a list `[A, B, C]` where both `A` and `B` fit, the result is the
placement computed for `A`. -/
theorem tooltip_first_fit :
    (∀ (env : Viewport) (target tooltip : Rect) (padding separation : ℚ)
        (a : CardinalOrientation) (rest : List CardinalOrientation) (o : CardinalOrientation),
      (a :: rest).find? (fitsB env target tooltip padding separation) = some o →
      getTooltipPosition env ⟨target, some tooltip, padding, separation, some (a :: rest)⟩
        = some (placeOrientation env target tooltip padding separation o)) ∧
    (∀ (env : Viewport) (target tooltip : Rect) (padding separation : ℚ)
        (A B C : CardinalOrientation),
      fitsB env target tooltip padding separation A = true →
      fitsB env target tooltip padding separation B = true →
      getTooltipPosition env ⟨target, some tooltip, padding, separation, some [A, B, C]⟩
        = some (placeOrientation env target tooltip padding separation A)) := by
  constructor
  · intro env target tooltip padding separation a rest o h
    simp only [getTooltipPosition, effectiveOrientations, h]
  · intro env target tooltip padding separation A B C hA hB
    have hfind : ([A, B, C]).find? (fitsB env target tooltip padding separation) = some A :=
      List.find?_cons_of_pos _ hA
    simp only [getTooltipPosition, effectiveOrientations, hfind]

/-- Witness for C1 at spec scenario 1: viewport 1024 by 768, target at
(100, 100) sized 50 by 50, tooltip 200 by 80, padding 5, separation 10;
south and north both fit, and the list [south, north, east] resolves to
the south placement (25, 165). -/
theorem tooltip_first_fit_witness :
    fitsB ⟨1024, 768, 0, 0⟩ ⟨100, 100, 50, 50⟩ ⟨0, 0, 200, 80⟩ 5 10 .south = true ∧
    fitsB ⟨1024, 768, 0, 0⟩ ⟨100, 100, 50, 50⟩ ⟨0, 0, 200, 80⟩ 5 10 .north = true ∧
    getTooltipPosition ⟨1024, 768, 0, 0⟩
        ⟨⟨100, 100, 50, 50⟩, some ⟨0, 0, 200, 80⟩, 5, 10, some [.south, .north, .east]⟩
      = some (placeOrientation ⟨1024, 768, 0, 0⟩ ⟨100, 100, 50, 50⟩ ⟨0, 0, 200, 80⟩ 5 10 .south) :=
  ⟨by norm_num [fitsB, overflowAmounts, candidateCoords],
    by norm_num [fitsB, overflowAmounts, candidateCoords],
    tooltip_first_fit.2 ⟨1024, 768, 0, 0⟩ ⟨100, 100, 50, 50⟩ ⟨0, 0, 200, 80⟩ 5 10
      .south .north .east (by norm_num [fitsB, overflowAmounts, candidateCoords])
      (by norm_num [fitsB, overflowAmounts, candidateCoords])⟩

/-- C2: for a measured tooltip and a preference list none of whose
members fits the viewport, the resolver still returns a placement (no
error), namely the one computed for the first list element. -/
theorem tooltip_fallback_first
    (env : Viewport) (target tooltip : Rect) (padding separation : ℚ)
    (a : CardinalOrientation) (rest : List CardinalOrientation)
    (h : ∀ o ∈ a :: rest, fitsB env target tooltip padding separation o = false) :
    getTooltipPosition env ⟨target, some tooltip, padding, separation, some (a :: rest)⟩
      = some (placeOrientation env target tooltip padding separation a) := by
  have hfind : (a :: rest).find? (fitsB env target tooltip padding separation) = none := by
    rw [List.find?_eq_none]
    intro x hx
    simp [h x hx]
  simp only [getTooltipPosition, effectiveOrientations, hfind, List.head?, Option.map]

/-- Witness for C2 at spec scenario 2: the same target moved to top 700
in a 768-tall viewport with preference list [south]; south does not fit,
yet the result is the (overflowing) south placement. -/
theorem tooltip_fallback_first_witness :
    (∀ o ∈ ([.south] : List CardinalOrientation),
      fitsB ⟨1024, 768, 0, 0⟩ ⟨700, 100, 50, 50⟩ ⟨0, 0, 200, 80⟩ 5 10 o = false) ∧
    getTooltipPosition ⟨1024, 768, 0, 0⟩
        ⟨⟨700, 100, 50, 50⟩, some ⟨0, 0, 200, 80⟩, 5, 10, some [.south]⟩
      = some (placeOrientation ⟨1024, 768, 0, 0⟩ ⟨700, 100, 50, 50⟩ ⟨0, 0, 200, 80⟩ 5 10 .south) :=
  ⟨fun o ho => by
      simp only [List.mem_singleton] at ho
      subst ho
      norm_num [fitsB, overflowAmounts, candidateCoords],
    tooltip_fallback_first ⟨1024, 768, 0, 0⟩ ⟨700, 100, 50, 50⟩ ⟨0, 0, 200, 80⟩ 5 10
      .south [] (fun o ho => by
        simp only [List.mem_singleton] at ho
        subst ho
        norm_num [fitsB, overflowAmounts, candidateCoords])⟩

/-- C3: the resolver returns `none` whenever the request carries no
measured tooltip rectangle, for every target, padding, separation and
preference list. -/
theorem tooltip_unmeasured_none
    (env : Viewport) (target : Rect) (padding separation : ℚ)
    (prefs : Option (List CardinalOrientation)) :
    getTooltipPosition env ⟨target, none, padding, separation, prefs⟩ = none := rfl

/-- C4: target lookup returns an error (never a value) exactly when the
selector matches no element — the error is the function's result, so it
reaches the caller rather than being swallowed — and returns the matched
element's current bounding rectangle when the selector matches one. -/
theorem getTargetData_spec (doc : String → Option Rect) (selector : String) :
    (doc selector = none →
      getTargetData doc selector =
        Except.error ("element specified by  \"" ++ selector ++ "\" could not be found")) ∧
    (∀ r : Rect, doc selector = some r → getTargetData doc selector = Except.ok r) := by
  constructor
  · intro h
    simp [getTargetData, h]
  · intro r h
    simp [getTargetData, h]

/-- Witness for C4 on the sample document: the missing selector yields
the error, the hit selector yields the element's rectangle. -/
theorem getTargetData_spec_witness :
    getTargetData sampleDoc missSelector =
      Except.error ("element specified by  \"" ++ missSelector ++ "\" could not be found") ∧
    getTargetData sampleDoc hitSelector = Except.ok sampleRect :=
  ⟨(getTargetData_spec sampleDoc missSelector).1 (by simp [sampleDoc, missSelector, hitSelector]),
   (getTargetData_spec sampleDoc hitSelector).2 sampleRect (by simp [sampleDoc])⟩

/-- C5 as stated is false: `TourMask` rounds the page-absolute corner to
integers (it calls `getElementCoords` with rounding on) before
subtracting the padding, so for a target whose top is the fraction 1/2
the mask's top is `round(1/2) - 5 = -4`, not `1/2 - 5 = -9/2`. -/
theorem tourMask_unrounded_counterexample :
    TourMask (some { top := 1/2, left := 0, width := 50, height := 50 }) 5 ⟨0, 0⟩ ≠
      some { top := 1/2 + 0 - 5, left := 0 + 0 - 5,
             width := 50 + 5 * 2, height := 50 + 5 * 2 } := by
  simp only [TourMask, getElementCoords, jsRound]
  norm_num

/-- C5 amended: the mask rectangle is the target rectangle expanded by
`padding` on every side, with its top-left taken from the target's
page-absolute coordinates rounded to the nearest integer: top-left is
the rounded page-absolute corner minus `padding` in each axis, and the
sides are the target's sides plus twice the `padding`. -/
theorem tourMask_expanded_by_padding (t : Rect) (padding : ℚ) (scroll : Coords) :
    TourMask (some t) padding scroll =
      some { top := ((jsRound (t.top + scroll.y) : ℤ) : ℚ) - padding
             left := ((jsRound (t.left + scroll.x) : ℤ) : ℚ) - padding
             width := t.width + padding * 2
             height := t.height + padding * 2 } := rfl

/-- C6: without rounding, `getElementCoords` returns exactly the
rectangle's corner translated by the scroll offset, and with rounding it
returns the integer rounding of those same values. -/
theorem getElementCoords_translation (scroll : Coords) (rect : Rect) :
    (getElementCoords scroll rect false).x = rect.left + scroll.x ∧
    (getElementCoords scroll rect false).y = rect.top + scroll.y ∧
    (getElementCoords scroll rect true).x
      = ((jsRound ((getElementCoords scroll rect false).x) : ℤ) : ℚ) ∧
    (getElementCoords scroll rect true).y
      = ((jsRound ((getElementCoords scroll rect false).y) : ℤ) : ℚ) :=
  ⟨rfl, rfl, rfl, rfl⟩

/-- C7: with no computed position the tooltip style carries no `top` or
`left` and is hidden; with a position it is visible with `top` the
position's y and `left` the position's x. -/
theorem tooltipStyle_spec :
    tooltipStyle none = { top := none, left := none, visibility := Visibility.hidden } ∧
    ∀ c : Coords, tooltipStyle (some c)
      = { top := some c.y, left := some c.x, visibility := Visibility.visible } :=
  ⟨rfl, fun _ => rfl⟩

/-- C8: in the three-way options merge, `maskPadding` defaults to 5 and
`tooltipSeparation` defaults to 10 when neither the tour props nor the
step supply a value, and an explicit caller-supplied value — per-tour or
per-step — takes precedence over the default (the defaults are the
innermost spread). -/
theorem resolvedOptions_defaults (props stepContent : OptionsRec) :
    (props.maskPadding = none → stepContent.maskPadding = none →
      (resolvedOptions props stepContent).maskPadding = some 5) ∧
    (props.tooltipSeparation = none → stepContent.tooltipSeparation = none →
      (resolvedOptions props stepContent).tooltipSeparation = some 10) ∧
    (∀ v : ℚ, stepContent.maskPadding = none → props.maskPadding = some v →
      (resolvedOptions props stepContent).maskPadding = some v) ∧
    (∀ v : ℚ, stepContent.maskPadding = some v →
      (resolvedOptions props stepContent).maskPadding = some v) ∧
    (∀ v : ℚ, stepContent.tooltipSeparation = none → props.tooltipSeparation = some v →
      (resolvedOptions props stepContent).tooltipSeparation = some v) ∧
    (∀ v : ℚ, stepContent.tooltipSeparation = some v →
      (resolvedOptions props stepContent).tooltipSeparation = some v) := by
  refine ⟨?_, ?_, ?_, ?_, ?_, ?_⟩
  · intro h1 h2
    simp [resolvedOptions, mergeOptions, walktourDefaultProps, h1, h2, Option.orElse]
  · intro h1 h2
    simp [resolvedOptions, mergeOptions, walktourDefaultProps, h1, h2, Option.orElse]
  · intro v h1 h2
    simp [resolvedOptions, mergeOptions, h1, h2, Option.orElse]
  · intro v h1
    simp [resolvedOptions, mergeOptions, h1, Option.orElse]
  · intro v h1 h2
    simp [resolvedOptions, mergeOptions, h1, h2, Option.orElse]
  · intro v h1
    simp [resolvedOptions, mergeOptions, h1, Option.orElse]

/-- Witness for C8 on concrete option records: all-absent records
resolve to the defaults 5 and 10, a tour-level 7 beats the default, and
a step-level 9 beats both. -/
theorem resolvedOptions_defaults_witness :
    (resolvedOptions
        ⟨none, none, none, none, none, none, none, none, none⟩
        ⟨none, none, none, none, none, none, none, none, none⟩).maskPadding = some 5 ∧
    (resolvedOptions
        ⟨none, none, none, none, none, none, none, none, none⟩
        ⟨none, none, none, none, none, none, none, none, none⟩).tooltipSeparation = some 10 ∧
    (resolvedOptions
        ⟨none, none, none, none, some 7, none, none, none, none⟩
        ⟨none, none, none, none, none, none, none, none, none⟩).maskPadding = some 7 ∧
    (resolvedOptions
        ⟨none, none, none, none, some 7, none, none, none, none⟩
        ⟨none, none, none, none, some 9, none, none, none, none⟩).maskPadding = some 9 :=
  ⟨(resolvedOptions_defaults _ _).1 rfl rfl,
   (resolvedOptions_defaults _ _).2.1 rfl rfl,
   (resolvedOptions_defaults _ _).2.2.1 7 rfl rfl,
   (resolvedOptions_defaults _ _).2.2.2.1 9 rfl⟩

/-- C9: `goToStep` leaves the current index unchanged on any negative or
too-large argument, and consequently, from a valid starting index, every
sequence of `next`, `prev`, `skip` and `goToStep` calls keeps the
current index within `[0, steps.length)`. -/
theorem goToStep_bounds (stepsLength : ℕ) (cur : ℤ) :
    (∀ stepIndex : ℤ, stepIndex < 0 ∨ stepIndex ≥ stepsLength →
      goToStep stepsLength cur stepIndex = cur) ∧
    (∀ actions : List TourAction, 0 ≤ cur → cur < stepsLength →
      0 ≤ runActions stepsLength cur actions ∧
        runActions stepsLength cur actions < stepsLength) := by
  constructor
  · intro stepIndex h
    unfold goToStep
    rw [if_pos (Or.symm h)]
  · intro actions h0 h1
    exact runActions_preserves stepsLength actions cur h0 h1

/-- Witness for C9 with three steps: `goToStep 5` from index 1 is a
no-op, and a concrete call sequence starting at index 0 stays within
bounds. -/
theorem goToStep_bounds_witness :
    goToStep 3 1 5 = 1 ∧
    (0 ≤ runActions 3 0 [.next, .next, .next, .prev, .goto 7, .goto 2, .skip] ∧
      runActions 3 0 [.next, .next, .next, .prev, .goto 7, .goto 2, .skip] < 3) :=
  ⟨(goToStep_bounds 3 1).1 5 (by norm_num),
   (goToStep_bounds 3 0).2 [.next, .next, .next, .prev, .goto 7, .goto 2, .skip]
     (by norm_num) (by norm_num)⟩

/-- C10: `initialStepIndex` is not validated — with a single step and
`initialStepIndex = 1` the initial current index is the out-of-range 1,
`getStep` yields `undefined` (`none`), and the placement effect's
unguarded `.querySelector` access on that value fails (a JavaScript
`TypeError`, modelled as the error result). -/
theorem initialStepIndex_unvalidated :
    initialCurrentStepIndex (some 1) = 1 ∧
    ([sampleStep] : List Step).length ≤ 1 ∧
    getStep 1 [sampleStep] = none ∧
    effectQuerySelector 1 [sampleStep]
      = Except.error ("TypeError: cannot read querySelector of undefined") := by
  refine ⟨rfl, by norm_num, rfl, rfl⟩
